import Mathlib

/-!
Shallow embedding of the nucampsiteServer authentication/authorization layer
and the route handlers it gates: the `authenticate` module (local, jwt and
facebook passport strategies, `getToken`, `verifyAdmin`), the `users` router
(signup, login, logout), the campsite router (comment creation, comment
edit/delete authorization, the middleware chains of every route) and the
favorites router (duplicate-avoiding adds).

Ids (Mongo ObjectIds) are modelled as `Nat`; the document store as a
`List` of records; callback-style error-first flows as `Except` values.
A property access on a JavaScript `null`/`undefined` value throws a
`TypeError` at runtime, which the promise chain routes to `next(err)` with
no `status` field (Express then answers 500); we model that outcome as a
distinguished `jsTypeError` result.
-/

namespace Nucamp

/-- A user as placed on `req.user` by the jwt strategy: the document id and
the admin flag are the only fields the gated handlers consult. -/
structure ReqUser where
  id : Nat
  admin : Bool
  deriving DecidableEq, Repr

/-- A comment subdocument of a campsite: `_id`, `author` (the user id the
`author` field holds), `rating` and `text`. -/
structure Comment where
  id : Nat
  author : Nat
  rating : Nat
  text : String
  deriving DecidableEq, Repr

/-- A campsite document with its comments subdocument array. -/
structure Campsite where
  id : Nat
  comments : List Comment
  deriving DecidableEq, Repr

/-- What a request body for a comment may carry: optional rating, text and
an (attacker- or client-supplied) author field. -/
structure CommentBody where
  rating : Option Nat
  text : Option String
  author : Option Nat
  deriving DecidableEq, Repr

/-- Outcome of a route handler: a 200 JSON response carrying the saved
campsite, an error handed to `next(err)` with a message and a status, or a
JavaScript `TypeError` thrown by a property access on `null` (Express turns
it into a 500 with no bespoke status). -/
inductive HandlerResult where
  | ok (campsite : Campsite)
  | errorNext (msg : String) (status : Nat)
  | jsTypeError
  deriving DecidableEq, Repr

/-- `campsite.comments.id(commentId)` — look up a comment subdocument by id. -/
def commentsId (comments : List Comment) (commentId : Nat) : Option Comment :=
  comments.find? (fun c => c.id = commentId)

/-- POST `/campsites/:campsiteId/comments` (campsiteRouter.js lines 154-183):
if the campsite exists, the handler overwrites `req.body.author` with
`req.user._id` and pushes the body as a new comment (whose subdocument id
`newId` Mongoose assigns); otherwise it passes a 404 to `next`. -/
def postComment (campsiteId : Nat) (campsite? : Option Campsite)
    (user : ReqUser) (body : CommentBody) (newId : Nat) : HandlerResult :=
  match campsite? with
  | some campsite =>
    let body' : CommentBody := { body with author := some user.id }
    let newComment : Comment :=
      { id := newId
        author := body'.author.getD 0
        rating := body'.rating.getD 0
        text := body'.text.getD "" }
    .ok { campsite with comments := campsite.comments ++ [newComment] }
  | none =>
    .errorNext ("Campsite " ++ toString campsiteId ++ " not found") 404

/-- PUT `/campsites/:campsiteId/comments/:commentId` (campsiteRouter.js lines
245-283): when the campsite and the comment exist, the handler compares
`req.user._id` with the stored comment's author id; on a match it applies the
rating/text updates from the body and saves, otherwise it passes a 403 to
`next`; a missing campsite or comment yields a 404. -/
def putComment (campsiteId : Nat) (campsite? : Option Campsite)
    (user : ReqUser) (commentId : Nat) (body : CommentBody) : HandlerResult :=
  match campsite? with
  | some campsite =>
    match commentsId campsite.comments commentId with
    | some comment =>
      if user.id = comment.author then
        let comment' : Comment :=
          { comment with
              rating := match body.rating with
                        | some r => r
                        | none => comment.rating
              text := match body.text with
                      | some t => t
                      | none => comment.text }
        .ok { campsite with
                comments := campsite.comments.map
                  (fun c => if c.id = commentId then comment' else c) }
      else
        .errorNext "You are not authorized to delete this comment!" 403
    | none =>
      .errorNext ("Comment " ++ toString commentId ++ " not found") 404
  | none =>
    .errorNext ("Campsite " ++ toString campsiteId ++ " not found") 404

/-- DELETE `/campsites/:campsiteId/comments/:commentId` (campsiteRouter.js
lines 285-318). The handler dereferences
`campsite.comments.id(commentId).author._id` before any null check, so a
missing campsite or a missing comment throws a `TypeError`. When both exist:
if the acting user is the author or an admin the comment is removed (the
inner `if (campsite && campsite.comments.id(...))` is then necessarily
true, so its 403 else-branch is dead); otherwise control falls to the final
`else`, which passes a 404 "Comment ... not found" to `next` even though
the comment exists. -/
def deleteComment (campsite? : Option Campsite) (user : ReqUser)
    (commentId : Nat) : HandlerResult :=
  match campsite? with
  | none => .jsTypeError
  | some campsite =>
    match commentsId campsite.comments commentId with
    | none => .jsTypeError
    | some comment =>
      if user.id = comment.author || user.admin then
        .ok { campsite with
                comments := campsite.comments.filter (fun c => c.id ≠ commentId) }
      else
        .errorNext ("Comment " ++ toString commentId ++ " not found") 404

/-- Outcome of a middleware: pass control on, or hand an error to `next`. -/
inductive MwResult where
  | next
  | nextError (msg : String) (status : Nat)
  deriving DecidableEq, Repr

/-- `exports.verifyAdmin` (authenticate module lines 156-164): pass through
when `req.user.admin` is truthy, otherwise hand `next` a 403 error with the
fixed message. -/
def verifyAdmin (user : ReqUser) : MwResult :=
  if user.admin then
    .next
  else
    .nextError "You are not authorized to perform this operation!" 403

/-- Outcome of the logout handler: a redirect response, an error handed to
`next(err)`, or a `ReferenceError` thrown because the handler read an
identifier that is not bound anywhere in scope. -/
inductive LogoutResult where
  | redirect (path : String)
  | nextError (msg : String) (status : Nat)
  | refError (name : String)
  deriving DecidableEq, Repr

/-- Side effects and outcome of GET `/users/logout`. -/
structure LogoutOutcome where
  sessionDestroyed : Bool
  cookieCleared : Option String
  result : LogoutResult
  deriving DecidableEq, Repr

/-- GET `/users/logout` (users.js lines 103-124): with a session, the handler
destroys it, clears the `session-id` cookie and redirects to `/`. Without a
session it constructs an error with message "You are not logged in!" and
status 401 in the local variable `err`, but then executes `return next(Err)`
— `Err` (capital E) is unbound, so evaluation throws a `ReferenceError`
named after `Err` and the constructed 401 error is never passed to `next`. -/
def logout (hasSession : Bool) : LogoutOutcome :=
  if hasSession then
    { sessionDestroyed := true
      cookieCleared := some "session-id"
      result := .redirect "/" }
  else
    { sessionDestroyed := false
      cookieCleared := none
      result := .refError "Err" }

/-- A token payload as produced by `jwt.sign({ _id }, secretKey,
{ expiresIn: 3600 })`: the user id, the issued-at time and the expiry
(seconds since the epoch). -/
structure TokenPayload where
  userId : Nat
  iat : Nat
  exp : Nat
  deriving DecidableEq, Repr

/-- Modelled from the spec: the signature the external `jsonwebtoken`
library computes over a payload with the configured signing secret (the
library itself is an external collaborator, not part of this repository).
The spec only requires that a signature match the secret and the payload, so
we model the MAC as the pair of the two — an idealised unforgeable MAC. -/
structure Sig where
  key : Nat
  signedPayload : TokenPayload
  deriving DecidableEq, Repr

/-- Modelled from the spec: signing a payload with a secret. -/
def mac (secret : Nat) (p : TokenPayload) : Sig :=
  { key := secret, signedPayload := p }

/-- A signed token: payload plus signature. Tampering with the payload or
the signature makes `sig ≠ mac secret payload`. -/
structure Token where
  payload : TokenPayload
  sig : Sig
  deriving DecidableEq, Repr

/-- `exports.getToken` (authenticate module lines 47-54): sign the payload
`{ _id: userId }` with `config.secretKey` and `expiresIn: 3600`, so the
token carries `iat = now` and `exp = now + 3600`. -/
def getToken (secret : Nat) (userId : Nat) (now : Nat) : Token :=
  { payload := { userId := userId, iat := now, exp := now + 3600 }
    sig := mac secret { userId := userId, iat := now, exp := now + 3600 } }

/-- Errors jwt verification can produce. -/
inductive VerifyError where
  | invalidSignature
  | expired
  deriving DecidableEq, Repr

/-- Modelled from the spec: the verification the `jsonwebtoken` library
performs for the passport-jwt strategy configured with
`opts.secretOrKey = config.secretKey` (lines 60-73): the signature is
checked against the secret first; then the token is expired when the
current time has reached `exp`; otherwise the embedded user id is
returned. -/
def verifyToken (secret : Nat) (t : Token) (now : Nat) :
    Except VerifyError Nat :=
  if t.sig ≠ mac secret t.payload then
    .error .invalidSignature
  else if t.payload.exp ≤ now then
    .error .expired
  else
    .ok t.payload.userId

/-- A user document of the User model: Mongo id, unique username, the
salted password credential the passport-local-mongoose plugin stores
(absent for third-party users), the facebook id when linked, optional
profile names and the admin flag (default false). -/
structure UserDoc where
  id : Nat
  username : String
  salt : Nat
  hash : Option (Nat × String)
  facebookId : Option String
  firstname : Option String
  lastname : Option String
  admin : Bool
  deriving DecidableEq, Repr

/-- Modelled from the spec: the salted one-way hash the
passport-local-mongoose plugin computes. The spec requires only that
comparison recompute the hash from the stored salt and succeed exactly on
the registered password, so we model the hash as the (salt, password)
pair. -/
def hashPw (salt : Nat) (password : String) : Nat × String :=
  (salt, password)

/-- Authentication errors of the local authenticator. -/
inductive AuthError where
  | userNotFound
  | badCredentials
  | usernameTaken
  deriving DecidableEq, Repr

/-- Modelled from the spec: `User.register` as used by POST `/users/signup`
(users.js lines 21-73) — the passport-local-mongoose plugin is not part of
this repository. Registration fails when the username is taken, otherwise
it persists a new user whose credential is the salted hash of the password
(`salt` and `newId` stand for the plugin's fresh salt and Mongo's fresh
document id) and returns the created user. -/
def register (store : List UserDoc) (username password : String)
    (salt newId : Nat) : Except AuthError (UserDoc × List UserDoc) :=
  if store.any (fun u => u.username = username) then
    .error .usernameTaken
  else
    let u : UserDoc :=
      { id := newId
        username := username
        salt := salt
        hash := some (hashPw salt password)
        facebookId := none
        firstname := none
        lastname := none
        admin := false }
    .ok (u, store ++ [u])

/-- Modelled from the spec: `User.authenticate()` as installed by
`exports.local` (authenticate module line 29) — the plugin is not part of
this repository. Look the user up by username; absent, fail with
`userNotFound`; present, recompute the salted hash of the presented
password and compare with the stored credential. -/
def authenticate (store : List UserDoc) (username password : String) :
    Except AuthError UserDoc :=
  match store.find? (fun u => u.username = username) with
  | none => .error .userNotFound
  | some u =>
    if u.hash = some (hashPw u.salt password) then
      .ok u
    else
      .error .badCredentials

/-- The profile the facebook token strategy hands the verify callback. -/
structure FbProfile where
  id : String
  displayName : String
  givenName : String
  familyName : String
  deriving DecidableEq, Repr

/-- `exports.facebookPassport`'s verify callback (authenticate module lines
117-146): find a user whose `facebookId` equals the profile id; if found,
return it with the store untouched; otherwise create a new User with
`username = profile.displayName`, the facebook id recorded and
`firstname`/`lastname` copied from the profile's given/family name, save it
(`newId` stands for Mongo's fresh document id) and return it. -/
def facebookLogin (store : List UserDoc) (profile : FbProfile)
    (newId : Nat) : UserDoc × List UserDoc :=
  match store.find? (fun u => u.facebookId = some profile.id) with
  | some u => (u, store)
  | none =>
    let u : UserDoc :=
      { id := newId
        username := profile.displayName
        salt := 0
        hash := none
        facebookId := some profile.id
        firstname := some profile.givenName
        lastname := some profile.familyName
        admin := false }
    (u, store ++ [u])

/-- A favorites document: the owning user and the list of favorited
campsite ids. -/
structure Favorite where
  user : Nat
  campsites : List Nat
  deriving DecidableEq, Repr

/-- POST `/favorites` (favoriteRouter, part_001 lines 24-50): with an
existing favorites document, iterate over the request body (a list of
campsite references) and push each id that the — already mutated — in-memory
campsites array does not yet contain; with no document, create one whose
campsites list is the request body copied verbatim. -/
def favPostList (fav? : Option Favorite) (userId : Nat)
    (body : List Nat) : Favorite :=
  match fav? with
  | some fav =>
    { fav with
        campsites :=
          body.foldl
            (fun acc c => if acc.contains c then acc else acc ++ [c])
            fav.campsites }
  | none => { user := userId, campsites := body }

/-- POST `/favorites/:campsiteId` (favoriteRouter, part_001 lines 85-118):
with an existing document, push the id only when absent, otherwise answer
"That campsite is already a favorite!" and leave the document unchanged;
with no document, create one holding just this id. The second component is
the plain-text message sent instead of the JSON document, when any. -/
def favPostSingle (fav? : Option Favorite) (userId : Nat)
    (campsiteId : Nat) : Favorite × Option String :=
  match fav? with
  | some fav =>
    if fav.campsites.contains campsiteId then
      (fav, some "That campsite is already a favorite!")
    else
      ({ fav with campsites := fav.campsites ++ [campsiteId] }, none)
  | none => ({ user := userId, campsites := [campsiteId] }, none)

/-- A favorite-adding operation: POST to the list endpoint with a body of
campsite references, or POST to a single campsite id. -/
inductive FavOp where
  | listAdd (body : List Nat)
  | singleAdd (campsiteId : Nat)
  deriving DecidableEq, Repr

/-- Apply one favorite-adding operation to the (possibly absent) favorites
document of `userId`. -/
def applyFavOp (userId : Nat) (fav? : Option Favorite) (op : FavOp) :
    Option Favorite :=
  match op with
  | .listAdd body => some (favPostList fav? userId body)
  | .singleAdd cid => some (favPostSingle fav? userId cid).fst

/-- Apply a sequence of favorite-adding operations in order. -/
def applyFavOps (userId : Nat) (fav? : Option Favorite)
    (ops : List FavOp) : Option Favorite :=
  ops.foldl (applyFavOp userId) fav?

/-- HTTP methods of the campsite router's routes. -/
inductive Method where
  | get
  | post
  | put
  | delete
  deriving DecidableEq, Repr

/-- The authentication middlewares the campsite router wires before a
handler. -/
inductive Middleware where
  | verifyUser
  | verifyAdmin
  deriving DecidableEq, Repr

/-- One route of the campsite router: path pattern, method and the
middleware chain in front of the handler. -/
structure Route where
  path : String
  method : Method
  middlewares : List Middleware
  deriving DecidableEq, Repr

/-- The sixteen routes of campsiteRouter.js with their middleware chains
exactly as registered (lines 24-318): every GET has no middleware, every
POST/PUT/DELETE starts with `authenticate.verifyUser`. -/
def campsiteRoutes : List Route :=
  [ { path := "/", method := .get, middlewares := [] }
  , { path := "/", method := .post, middlewares := [.verifyUser, .verifyAdmin] }
  , { path := "/", method := .put, middlewares := [.verifyUser] }
  , { path := "/", method := .delete, middlewares := [.verifyUser, .verifyAdmin] }
  , { path := "/:campsiteId", method := .get, middlewares := [] }
  , { path := "/:campsiteId", method := .post, middlewares := [.verifyUser] }
  , { path := "/:campsiteId", method := .put, middlewares := [.verifyUser, .verifyAdmin] }
  , { path := "/:campsiteId", method := .delete, middlewares := [.verifyUser, .verifyAdmin] }
  , { path := "/:campsiteId/comments", method := .get, middlewares := [] }
  , { path := "/:campsiteId/comments", method := .post, middlewares := [.verifyUser] }
  , { path := "/:campsiteId/comments", method := .put, middlewares := [.verifyUser] }
  , { path := "/:campsiteId/comments", method := .delete, middlewares := [.verifyUser, .verifyAdmin] }
  , { path := "/:campsiteId/comments/:commentId", method := .get, middlewares := [] }
  , { path := "/:campsiteId/comments/:commentId", method := .post, middlewares := [.verifyUser] }
  , { path := "/:campsiteId/comments/:commentId", method := .put, middlewares := [.verifyUser] }
  , { path := "/:campsiteId/comments/:commentId", method := .delete, middlewares := [.verifyUser] }
  ]

/-- Outcome of running a middleware chain: the request reaches the handler,
or it is rejected with an HTTP status (401 from `verifyUser` when no valid
token resolves a user, 403 from `verifyAdmin` for a non-admin). -/
inductive ChainResult where
  | handler
  | rejected (status : Nat)
  deriving DecidableEq, Repr

/-- Run a middleware chain for a request that token verification resolved to
`user?` (`none` when no valid token was presented). -/
def runChain (ms : List Middleware) (user? : Option ReqUser) : ChainResult :=
  match ms with
  | [] => .handler
  | .verifyUser :: rest =>
    match user? with
    | none => .rejected 401
    | some _ => runChain rest user?
  | .verifyAdmin :: rest =>
    match user? with
    | none => .rejected 401
    | some u => if u.admin then runChain rest user? else .rejected 403

/-! ### Helper lemmas -/

theorem find?_append_of_none {α : Type} (p : α → Bool) {l₁ : List α}
    (h : l₁.find? p = none) (l₂ : List α) :
    (l₁ ++ l₂).find? p = l₂.find? p := by
  induction l₁ with
  | nil => rfl
  | cons a l ih =>
    cases hpa : p a with
    | false =>
      rw [List.cons_append, List.find?_cons_of_neg _ (by simp [hpa])]
      rw [List.find?_cons_of_neg _ (by simp [hpa])] at h
      exact ih h
    | true =>
      rw [List.find?_cons_of_pos _ hpa] at h
      exact absurd h (by simp)

theorem nodup_append_single {l : List Nat} {b : Nat}
    (h : l.Nodup) (hb : ¬ b ∈ l) : (l ++ [b]).Nodup := by
  rw [List.nodup_append]
  refine ⟨h, List.nodup_singleton b, ?_⟩
  intro a ha hmem
  rw [List.mem_singleton] at hmem
  exact hb (hmem ▸ ha)

theorem nodup_foldl_pushNew (body : List Nat) :
    ∀ l : List Nat, l.Nodup →
      (body.foldl (fun acc c => if acc.contains c then acc else acc ++ [c])
        l).Nodup := by
  induction body with
  | nil => intro l h; exact h
  | cons b body ih =>
    intro l h
    simp only [List.foldl]
    by_cases hb : l.contains b
    · rw [if_pos hb]
      exact ih l h
    · rw [if_neg hb]
      refine ih _ (nodup_append_single h ?_)
      intro hmem
      exact hb (by simpa using hmem)

theorem applyFavOp_nodup (userId : Nat) (fav? : Option Favorite) (op : FavOp)
    (hstart : ∀ f, fav? = some f → f.campsites.Nodup)
    (hbody : ∀ body, op = .listAdd body → body.Nodup) :
    ∀ f', applyFavOp userId fav? op = some f' → f'.campsites.Nodup := by
  intro f' h
  cases op with
  | listAdd body =>
    cases fav? with
    | none =>
      simp only [applyFavOp, favPostList, Option.some.injEq] at h
      subst h
      exact hbody body rfl
    | some fav =>
      simp only [applyFavOp, favPostList, Option.some.injEq] at h
      subst h
      exact nodup_foldl_pushNew body fav.campsites (hstart fav rfl)
  | singleAdd cid =>
    cases fav? with
    | none =>
      simp only [applyFavOp, favPostSingle, Option.some.injEq] at h
      subst h
      exact List.nodup_singleton cid
    | some fav =>
      simp only [applyFavOp, favPostSingle] at h
      by_cases hc : fav.campsites.contains cid
      · rw [if_pos hc] at h
        cases h
        exact hstart fav rfl
      · rw [if_neg hc] at h
        cases h
        refine nodup_append_single (hstart fav rfl) ?_
        intro hmem
        exact hc (by simpa using hmem)

theorem applyFavOps_nodup (userId : Nat) (ops : List FavOp) :
    ∀ fav? : Option Favorite,
      (∀ f, fav? = some f → f.campsites.Nodup) →
      (∀ body, FavOp.listAdd body ∈ ops → body.Nodup) →
      ∀ f', applyFavOps userId fav? ops = some f' → f'.campsites.Nodup := by
  induction ops with
  | nil =>
    intro fav? hstart _ f' h
    exact hstart f' h
  | cons op ops ih =>
    intro fav? hstart hbodies f' h
    simp only [applyFavOps, List.foldl] at h
    refine ih (applyFavOp userId fav? op) ?_ ?_ f' h
    · intro f hf
      exact applyFavOp_nodup userId fav? op hstart
        (fun body hb => hbodies body (hb ▸ List.mem_cons_self _ _)) f hf
    · intro body hb
      exact hbodies body (List.mem_cons_of_mem _ hb)

/-! ### Claim theorems -/

/-- C1: the claim says a comment DELETE by an actor who is neither the
author nor an admin is rejected with 403 Forbidden. The code instead
falls through to the 404 "Comment ... not found" branch although the
comment exists; the owner/admin acceptance side and the edit (PUT)
owner-only rule do behave as claimed. This closed theorem evaluates the
handlers at the failing input. -/
theorem comment_delete_auth_divergence :
    deleteComment (some { id := 1, comments := [{ id := 5, author := 10, rating := 4, text := "nice" }] })
        { id := 20, admin := false } 5
      = .errorNext "Comment 5 not found" 404
    ∧ deleteComment (some { id := 1, comments := [{ id := 5, author := 10, rating := 4, text := "nice" }] })
        { id := 10, admin := false } 5
      = .ok { id := 1, comments := [] }
    ∧ deleteComment (some { id := 1, comments := [{ id := 5, author := 10, rating := 4, text := "nice" }] })
        { id := 20, admin := true } 5
      = .ok { id := 1, comments := [] }
    ∧ putComment 1 (some { id := 1, comments := [{ id := 5, author := 10, rating := 4, text := "nice" }] })
        { id := 20, admin := true } 5 { rating := none, text := some "edited", author := none }
      = .errorNext "You are not authorized to delete this comment!" 403
    ∧ putComment 1 (some { id := 1, comments := [{ id := 5, author := 10, rating := 4, text := "nice" }] })
        { id := 10, admin := false } 5 { rating := none, text := some "edited", author := none }
      = .ok { id := 1, comments := [{ id := 5, author := 10, rating := 4, text := "edited" }] } := by
  refine ⟨rfl, rfl, rfl, rfl, rfl⟩

/-- C2: a token issued at time T verifies successfully, returning the
embedded user id, at every t with T ≤ t < T + 3600, and fails with an
expiry error at every t ≥ T + 3600. -/
theorem token_lifetime (secret userId T t : Nat) :
    (T ≤ t → t < T + 3600 →
      verifyToken secret (getToken secret userId T) t = .ok userId)
    ∧ (T + 3600 ≤ t →
      verifyToken secret (getToken secret userId T) t = .error .expired) := by
  constructor
  · intro _ hlt
    have hup : ¬ (T + 3600 ≤ t) := by omega
    simp [verifyToken, getToken, mac, hup]
  · intro hge
    simp [verifyToken, getToken, mac, hge]

theorem token_lifetime_witness :
    verifyToken 1 (getToken 1 42 100) 3699 = .ok 42
    ∧ verifyToken 1 (getToken 1 42 100) 3700 = .error .expired :=
  ⟨(token_lifetime 1 42 100 3699).1 (by omega) (by omega),
   (token_lifetime 1 42 100 3700).2 (by omega)⟩

/-- C3: a third-party login whose external id matches no stored user
creates exactly one new user, with username the profile's display name,
the external id recorded and first/last name copied from the profile; a
second login with the same external id returns that same user and leaves
the store unchanged. -/
theorem facebook_login_creates_once (store : List UserDoc)
    (profile : FbProfile) (newId newId2 : Nat)
    (h : store.find? (fun u => u.facebookId = some profile.id) = none) :
    ∃ u : UserDoc,
      facebookLogin store profile newId = (u, store ++ [u])
      ∧ u.username = profile.displayName
      ∧ u.facebookId = some profile.id
      ∧ u.firstname = some profile.givenName
      ∧ u.lastname = some profile.familyName
      ∧ (store ++ [u]).length = store.length + 1
      ∧ facebookLogin (store ++ [u]) profile newId2 = (u, store ++ [u]) := by
  refine ⟨{ id := newId, username := profile.displayName, salt := 0,
            hash := none, facebookId := some profile.id,
            firstname := some profile.givenName,
            lastname := some profile.familyName, admin := false },
          ?_, rfl, rfl, rfl, rfl, by simp, ?_⟩
  · unfold facebookLogin
    rw [h]
  · unfold facebookLogin
    rw [find?_append_of_none _ h]
    simp [List.find?]

theorem facebook_login_creates_once_witness :
    ∃ u : UserDoc,
      facebookLogin [] { id := "fb1", displayName := "Jo Doe", givenName := "Jo", familyName := "Doe" } 3 = (u, [] ++ [u])
      ∧ u.username = "Jo Doe"
      ∧ u.facebookId = some "fb1"
      ∧ u.firstname = some "Jo"
      ∧ u.lastname = some "Doe"
      ∧ ([] ++ [u]).length = List.length ([] : List UserDoc) + 1
      ∧ facebookLogin ([] ++ [u]) { id := "fb1", displayName := "Jo Doe", givenName := "Jo", familyName := "Doe" } 4 = (u, [] ++ [u]) :=
  facebook_login_creates_once [] _ 3 4 rfl

/-- C4: a register accepted for a (username, password) pair is followed by
a successful authenticate with the same pair, resolving to the very user
record (hence the same user id) registration created. -/
theorem register_authenticate_roundtrip (store : List UserDoc)
    (username password : String) (salt newId : Nat)
    (u : UserDoc) (store' : List UserDoc)
    (h : register store username password salt newId = .ok (u, store')) :
    authenticate store' username password = .ok u ∧ u.id = newId := by
  unfold register at h
  by_cases htaken : store.any (fun v => v.username = username)
  · rw [if_pos htaken] at h
    exact absurd h (by simp)
  · rw [if_neg htaken] at h
    simp only [Except.ok.injEq, Prod.mk.injEq] at h
    obtain ⟨hu, hs⟩ := h
    subst hu
    subst hs
    constructor
    · unfold authenticate
      have hnone : store.find? (fun v => v.username = username) = none := by
        rw [List.find?_eq_none]
        intro x hx
        simp only [List.any_eq_true, not_exists, not_and] at htaken
        simpa using htaken x hx
      rw [find?_append_of_none _ hnone]
      simp [List.find?]
    · rfl

theorem register_authenticate_roundtrip_witness :
    authenticate
      [{ id := 2, username := "alice", salt := 7, hash := some (hashPw 7 "pw"),
         facebookId := none, firstname := none, lastname := none, admin := false }]
      "alice" "pw"
      = .ok { id := 2, username := "alice", salt := 7, hash := some (hashPw 7 "pw"),
              facebookId := none, firstname := none, lastname := none, admin := false }
    ∧ (2 : Nat) = 2 :=
  register_authenticate_roundtrip [] "alice" "pw" 7 2 _ _ rfl

/-- C5: `verifyAdmin` passes the request through exactly when the acting
user's admin flag is true, and rejects a non-admin by handing `next` a 403
error with message "You are not authorized to perform this operation!". -/
theorem verifyAdmin_gate (u : ReqUser) :
    (verifyAdmin u = .next ↔ u.admin = true)
    ∧ (u.admin = false →
      verifyAdmin u
        = .nextError "You are not authorized to perform this operation!" 403) := by
  obtain ⟨i, a⟩ := u
  cases a <;> simp [verifyAdmin]

theorem verifyAdmin_gate_witness :
    verifyAdmin { id := 0, admin := false }
      = .nextError "You are not authorized to perform this operation!" 403 :=
  (verifyAdmin_gate { id := 0, admin := false }).2 rfl

/-- C6: the claim says a logout without a session fails with a NotLoggedIn
error carrying status 401. The code builds exactly that error but then
executes `return next(Err)` with the unbound identifier `Err`, so the
request dies with a ReferenceError instead and the 401 error is never
passed on; the with-session branch does destroy the session, clear the
`session-id` cookie and redirect as claimed. -/
theorem logout_no_session_divergence :
    (logout true).sessionDestroyed = true
    ∧ (logout true).cookieCleared = some "session-id"
    ∧ (logout true).result = .redirect "/"
    ∧ (logout false).result = .refError "Err" := by
  refine ⟨rfl, rfl, rfl, rfl⟩

/-- C7: a token whose signature does not match the configured secret over
its payload fails verification with an invalid-signature error — whatever
the payload and the current time, so no user id is ever resolved from it. -/
theorem tampered_signature_rejected (secret now : Nat) (t : Token)
    (h : t.sig ≠ mac secret t.payload) :
    verifyToken secret t now = .error .invalidSignature := by
  unfold verifyToken
  rw [if_pos h]

theorem tampered_signature_rejected_witness :
    verifyToken 1
      { payload := { userId := 42, iat := 100, exp := 3700 }
        sig := { key := 2, signedPayload := { userId := 42, iat := 100, exp := 3700 } } }
      100
      = .error .invalidSignature :=
  tampered_signature_rejected 1 100 _ (by decide)

/-- C8: whatever author value the request body carries, the comment stored
by POST `/campsites/:campsiteId/comments` has its author field equal to the
authenticated user's id. -/
theorem postComment_author_is_req_user (campsiteId newId : Nat)
    (cs : Campsite) (u : ReqUser) (body : CommentBody) :
    ∃ c : Comment,
      postComment campsiteId (some cs) u body newId
        = .ok { cs with comments := cs.comments ++ [c] }
      ∧ c.author = u.id :=
  ⟨_, rfl, rfl⟩

/-- C9 counterexample: starting with no favorites document, one list-POST
whose body repeats a campsite id creates a document whose campsites list
holds that id twice — the claimed no-duplicates invariant fails. -/
theorem fav_nodup_counterexample :
    applyFavOps 7 none [FavOp.listAdd [1, 1]]
      = some { user := 7, campsites := [1, 1] }
    ∧ ¬ ([1, 1] : List Nat).Nodup :=
  ⟨rfl, by decide⟩

/-- C9 (amended): provided each list-POST body is itself duplicate-free,
every sequence of favorite-adding operations starting from a duplicate-free
(or absent) favorites document yields a duplicate-free campsites list —
adds to an existing document check membership before appending — and a
single-campsite POST for an already-present id leaves the document
unchanged, answering "That campsite is already a favorite!". -/
theorem fav_adds_nodup_amended (userId : Nat) (fav? : Option Favorite)
    (ops : List FavOp) :
    ((∀ f, fav? = some f → f.campsites.Nodup) →
      (∀ body, FavOp.listAdd body ∈ ops → body.Nodup) →
      ∀ f', applyFavOps userId fav? ops = some f' → f'.campsites.Nodup)
    ∧ (∀ (fav : Favorite) (cid : Nat), fav.campsites.contains cid = true →
        favPostSingle (some fav) userId cid
          = (fav, some "That campsite is already a favorite!")) := by
  constructor
  · intro hstart hbodies f' h
    exact applyFavOps_nodup userId ops fav? hstart hbodies f' h
  · intro fav cid hc
    have hmem : cid ∈ fav.campsites := by simpa using hc
    simp [favPostSingle, hmem]

theorem fav_adds_nodup_amended_witness :
    ({ user := 7, campsites := [1, 2] } : Favorite).campsites.Nodup
    ∧ favPostSingle (some { user := 7, campsites := [1, 2] }) 7 2
      = ({ user := 7, campsites := [1, 2] }, some "That campsite is already a favorite!") :=
  ⟨(fav_adds_nodup_amended 7 none [FavOp.listAdd [1, 2]]).1
      (fun f hf => by cases hf)
      (fun body hb => by
        simp only [List.mem_singleton, FavOp.listAdd.injEq] at hb
        subst hb
        decide)
      { user := 7, campsites := [1, 2] } rfl,
   (fav_adds_nodup_amended 7 none []).2 { user := 7, campsites := [1, 2] } 2 (by decide)⟩

/-- C10: every GET route of the campsite router carries no authentication
middleware — so it runs the handler for any request and can never be
rejected with a 401 — while every POST/PUT/DELETE route rejects a request
with no verified user with a 401 before reaching the handler. -/
theorem campsite_routes_auth (r : Route) (hr : r ∈ campsiteRoutes) :
    (r.method = .get →
      r.middlewares = []
      ∧ ∀ user? : Option ReqUser, runChain r.middlewares user? = .handler)
    ∧ (r.method ≠ .get → runChain r.middlewares none = .rejected 401) := by
  simp only [campsiteRoutes, List.mem_cons, List.not_mem_nil, or_false] at hr
  rcases hr with rfl | rfl | rfl | rfl | rfl | rfl | rfl | rfl | rfl | rfl | rfl | rfl | rfl | rfl | rfl | rfl <;>
    first
    | exact ⟨fun _ => ⟨rfl, fun _ => rfl⟩, fun h => (h rfl).elim⟩
    | exact ⟨fun h => absurd h (by decide), fun _ => rfl⟩

theorem campsite_routes_auth_witness :
    runChain [] (none : Option ReqUser) = .handler
    ∧ runChain [Middleware.verifyUser, Middleware.verifyAdmin] none = .rejected 401 :=
  ⟨((campsite_routes_auth { path := "/", method := .get, middlewares := [] }
      (by decide)).1 rfl).2 none,
   (campsite_routes_auth
      { path := "/", method := .post, middlewares := [.verifyUser, .verifyAdmin] }
      (by decide)).2 (by decide)⟩

end Nucamp
